import Mathlib

/-!
Verification of the wmtoboomi migration accelerator frontend against its
natural-language specification.  Each section embeds one piece of the
TypeScript source as executable Lean definitions and proves (or refutes)
the corresponding specification claims.
-/

namespace Canvas

/-! Shallow embedding of `BoomiProcessCanvas.tsx`: the `useMemo` body that
builds the generated node and edge lists of the Boomi process canvas. -/

/-- A flow step object as passed to the canvas (the `{ type, name }` shape
of the step literals in the component). -/
structure StepObj where
  type_ : String
  name : String
deriving DecidableEq, Repr

/-- A parsed document, of which the canvas reads only the `name` field. -/
structure DocObj where
  name : String
deriving DecidableEq, Repr

/-- The `data` payload of a generated canvas node (closures `onView` and
`onConvert` are dropped; the step literals they forward are derived from
the same adapter strings as the labels). -/
structure NodeData where
  label : String
  subLabel : Option String
  shapeType : String
  showActions : Bool
  isConverted : Bool
deriving DecidableEq, Repr

/-- One generated React Flow node of the canvas. -/
structure Node where
  id : String
  nodeType : String
  x : Int
  y : Int
  data : NodeData
deriving DecidableEq, Repr

/-- One generated React Flow edge of the canvas. -/
structure Edge where
  id : String
  source : String
  target : String
  animated : Bool
  stroke : String
deriving DecidableEq, Repr

/-- The props of `BoomiProcessCanvas` that the node/edge generation can see. -/
structure CanvasInput where
  flowSteps : List StepObj
  serviceName : String
  sourceDocuments : List DocObj
  targetDocuments : List DocObj
  adapters : List String
  convertedSteps : List Int
deriving DecidableEq, Repr

/-- JavaScript `s || fallback` on strings: the empty string is falsy. -/
def jsOr (s fallback : String) : String :=
  if s = "" then fallback else s

/-- JavaScript `name.split(sep).pop()` : the last segment of the split. -/
def lastPathSegment (name : String) : String :=
  (name.splitOn "/").getLastD ""

/-- JavaScript `docs[0]?.name?.split(sep).pop() || fallback`. -/
def headDocName (docs : List DocObj) (fallback : String) : String :=
  match docs with
  | [] => fallback
  | d :: _ => jsOr (lastPathSegment d.name) fallback

/-- `adapters[0] || 'Source'` (an absent element is as falsy as `''`). -/
def sourceAdapterOf (adapters : List String) : String :=
  jsOr (adapters.headD "") "Source"

/-- `adapters.length > 1 ? adapters[1] : (adapters[0] === 'Salesforce' ? 'Database' : adapters[0] || 'Target')`. -/
def targetAdapterOf (adapters : List String) : String :=
  if adapters.length > 1 then adapters.getD 1 ""
  else if adapters.headD "" = "Salesforce" then "Database"
  else jsOr (adapters.headD "") "Target"

/-- The node/edge generation of `BoomiProcessCanvas` (the `useMemo` body,
lines 75-163 of the component).  `centerX = 400`, `currentY` starts at `50`
and advances by `ySpacing = 90` after each node; the six nodes and five
edges are pushed in this fixed order.  Note that neither `flowSteps` nor
`serviceName` is read by the body. -/
def generateCanvas (inp : CanvasInput) : List Node × List Edge :=
  let centerX : Int := 400
  let ySpacing : Int := 90
  let sourceAdapter := sourceAdapterOf inp.adapters
  let targetAdapter := targetAdapterOf inp.adapters
  let sourceName := headDocName inp.sourceDocuments "Source"
  let targetName := headDocName inp.targetDocuments "Target"
  let nodes : List Node :=
    [ { id := "start", nodeType := "boomiShape", x := centerX - 60, y := 50,
        data := { label := "Start", subLabel := none, shapeType := "start",
                  showActions := false, isConverted := false } },
      { id := "try-catch", nodeType := "boomiShape", x := centerX - 90, y := 50 + ySpacing,
        data := { label := "Try/Catch", subLabel := some "Error Handling",
                  shapeType := "try-catch", showActions := true,
                  isConverted := inp.convertedSteps.contains (-1) } },
      { id := "source-connector", nodeType := "boomiShape", x := centerX - 90,
        y := 50 + 2 * ySpacing,
        data := { label := sourceAdapter ++ " Connector", subLabel := some "Get Source Data",
                  shapeType := "connector-source", showActions := true,
                  isConverted := inp.convertedSteps.contains 0 } },
      { id := "map", nodeType := "boomiShape", x := centerX - 90, y := 50 + 3 * ySpacing,
        data := { label := "Map Shape", subLabel := some (sourceName ++ " → " ++ targetName),
                  shapeType := "map", showActions := true,
                  isConverted := inp.convertedSteps.contains 1 } },
      { id := "target-connector", nodeType := "boomiShape", x := centerX - 90,
        y := 50 + 4 * ySpacing,
        data := { label := targetAdapter ++ " Connector", subLabel := some "Send Target Data",
                  shapeType := "connector-target", showActions := true,
                  isConverted := inp.convertedSteps.contains 2 } },
      { id := "end", nodeType := "boomiShape", x := centerX - 60, y := 50 + 5 * ySpacing,
        data := { label := "End", subLabel := none, shapeType := "end",
                  showActions := false, isConverted := false } } ]
  let edges : List Edge :=
    [ { id := "start-try-catch", source := "start", target := "try-catch",
        animated := true, stroke := "#0F4C75" },
      { id := "try-catch-source", source := "try-catch", target := "source-connector",
        animated := true, stroke := "#0F4C75" },
      { id := "source-connector-map", source := "source-connector", target := "map",
        animated := true, stroke := "#0F4C75" },
      { id := "map-target", source := "map", target := "target-connector",
        animated := true, stroke := "#0F4C75" },
      { id := "target-connector-end", source := "target-connector", target := "end",
        animated := true, stroke := "#0F4C75" } ]
  (nodes, edges)

/-- The node identifiers of the generated canvas, independent of the input. -/
theorem canvas_nodeIds (inp : CanvasInput) :
    (generateCanvas inp).1.map Node.id =
      ["start", "try-catch", "source-connector", "map", "target-connector", "end"] :=
  rfl

/-- The (source, target) pairs of the generated edges, independent of the input. -/
theorem canvas_edgePairs (inp : CanvasInput) :
    (generateCanvas inp).2.map (fun e => (e.source, e.target)) =
      [("start", "try-catch"), ("try-catch", "source-connector"),
       ("source-connector", "map"), ("map", "target-connector"),
       ("target-connector", "end")] :=
  rfl

/-- The vertical positions of the generated nodes, independent of the input. -/
theorem canvas_yPositions (inp : CanvasInput) :
    (generateCanvas inp).1.map Node.y = [50, 140, 230, 320, 410, 500] :=
  rfl

/-- The generated edge list itself is a constant of the generation. -/
theorem canvas_edges_const (inp : CanvasInput) :
    (generateCanvas inp).2.map Edge.source =
        ["start", "try-catch", "source-connector", "map", "target-connector"]
    ∧ (generateCanvas inp).2.map Edge.target =
        ["try-catch", "source-connector", "map", "target-connector", "end"] :=
  ⟨rfl, rfl⟩

/-- C1: for every input to the canvas node/edge generation, every generated
edge's source and target identifiers name nodes present in the generated
node set, and the node identifiers are pairwise distinct. -/
theorem C1_edges_reference_nodes_and_ids_distinct (inp : CanvasInput) :
    (∀ e ∈ (generateCanvas inp).2,
        e.source ∈ (generateCanvas inp).1.map Node.id
        ∧ e.target ∈ (generateCanvas inp).1.map Node.id)
    ∧ ((generateCanvas inp).1.map Node.id).Nodup := by
  refine ⟨?_, ?_⟩
  · intro e he
    rw [canvas_nodeIds]
    have hmem : (e.source, e.target) ∈
        (generateCanvas inp).2.map (fun e => (e.source, e.target)) :=
      List.mem_map_of_mem _ he
    rw [canvas_edgePairs] at hmem
    simp only [List.mem_cons, List.not_mem_nil, or_false, Prod.mk.injEq] at hmem
    rcases hmem with ⟨h1, h2⟩ | ⟨h1, h2⟩ | ⟨h1, h2⟩ | ⟨h1, h2⟩ | ⟨h1, h2⟩ <;>
      rw [h1, h2] <;> decide
  · rw [canvas_nodeIds]
    decide

/-- C5: the canvas generation is a deterministic pure function — two runs on
equal inputs produce equal node and edge lists — and the nodes are laid out
top-to-bottom in traversal order (strictly increasing y positions). -/
theorem C5_generation_deterministic_topdown (inp inp' : CanvasInput)
    (h : inp = inp') :
    generateCanvas inp = generateCanvas inp'
    ∧ List.Chain' (fun a b => a.y < b.y) (generateCanvas inp).1 := by
  subst h
  refine ⟨rfl, ?_⟩
  simp only [generateCanvas]
  exact List.chain'_cons.mpr ⟨by norm_num, List.chain'_cons.mpr ⟨by norm_num,
    List.chain'_cons.mpr ⟨by norm_num, List.chain'_cons.mpr ⟨by norm_num,
      List.chain'_cons.mpr ⟨by norm_num, List.chain'_singleton _⟩⟩⟩⟩⟩

/-- A concrete canvas input used to witness the hypotheses of the claims. -/
def demoInput : CanvasInput :=
  { flowSteps := [⟨"MAP", "transform"⟩], serviceName := "orders/sync",
    sourceDocuments := [⟨"docs/src"⟩], targetDocuments := [⟨"docs/tgt"⟩],
    adapters := ["Salesforce"], convertedSteps := [0] }

/-- Witness for C5 at a concrete input. -/
theorem C5_witness :
    generateCanvas demoInput = generateCanvas demoInput
    ∧ List.Chain' (fun a b => a.y < b.y) (generateCanvas demoInput).1 :=
  C5_generation_deterministic_topdown demoInput demoInput rfl

/-- C8: the generated canvas is independent of the `flowSteps` and
`serviceName` props — two calls differing only in those produce identical
node and edge lists — and the topology is always the fixed six-node
Start → Try/Catch → Source Connector → Map → Target Connector → End chain. -/
theorem C8_canvas_independent_of_flowSteps_serviceName
    (fs fs' : List StepObj) (sn sn' : String)
    (sd td : List DocObj) (ad : List String) (cs : List Int) :
    generateCanvas ⟨fs, sn, sd, td, ad, cs⟩ = generateCanvas ⟨fs', sn', sd, td, ad, cs⟩
    ∧ (generateCanvas ⟨fs, sn, sd, td, ad, cs⟩).1.map Node.id =
        ["start", "try-catch", "source-connector", "map", "target-connector", "end"]
    ∧ (generateCanvas ⟨fs, sn, sd, td, ad, cs⟩).2.map (fun e => (e.source, e.target)) =
        [("start", "try-catch"), ("try-catch", "source-connector"),
         ("source-connector", "map"), ("map", "target-connector"),
         ("target-connector", "end")] :=
  ⟨rfl, canvas_nodeIds _, canvas_edgePairs _⟩

end Canvas

namespace Viewer

/-! Shallow embedding of `StepByStepViewer`: the hard-coded conversion-step
lists per service type and the aggregate automation score. -/

/-- Status of one displayed conversion step. -/
inductive StepStatus where
  | pending
  | processing
  | complete
  | warning
deriving DecidableEq, Repr

/-- One entry of the `ConversionStep[]` array built by
`generateConversionSteps`. -/
structure ConversionStep where
  step : Nat
  title : String
  webMethodsComponent : String
  boomiComponent : String
  status : StepStatus
  details : String
  automation : Nat
deriving DecidableEq, Repr

/-- `generateConversionSteps`, branching on the service type exactly as the
component does and returning its hard-coded step lists. -/
def generateConversionSteps (serviceType : String) : List ConversionStep :=
  if serviceType = "FlowService" then
    [ ⟨1, "Analyze Flow Structure", "Flow Service with verbs (MAP, BRANCH, LOOP)",
        "Boomi Process with shapes", StepStatus.complete,
        "Detected pattern: Fetch-Transform-Send", 90⟩,
      ⟨2, "Map Flow Verbs to Shapes", "INVOKE (pub.client:http) → MAP → INVOKE (pub.json:encode)",
        "HTTP Connector → Map Shape → Data Process", StepStatus.complete,
        "Mapped 3 flow verbs to 3 Boomi shapes", 95⟩,
      ⟨3, "Generate Shape Connections", "Pipeline flow (implicit)",
        "Explicit connections between shapes", StepStatus.complete,
        "Created 2 connections with proper IDs", 100⟩,
      ⟨4, "Configure Connectors", "HTTP Adapter configuration",
        "HTTP Client Connector with URL and headers", StepStatus.complete,
        "Extracted URL, method, and authentication", 85⟩,
      ⟨5, "Generate Field Mappings", "MAP step with field assignments",
        "Map shape with XPath mappings", StepStatus.complete,
        "Mapped 12 fields automatically", 90⟩,
      ⟨6, "Generate Complete XML", "N/A",
        "Complete, deployable Process XML", StepStatus.complete,
        "Generated 147 lines of valid Boomi XML", 100⟩ ]
  else if serviceType = "DocumentType" then
    [ ⟨1, "Parse Document Structure", "Document Type (node.ndf)", "XML Profile",
        StepStatus.complete, "Extracted 8 fields from document definition", 95⟩,
      ⟨2, "Generate XSD Schema", "Field definitions with data types",
        "XSD with elements and complexTypes", StepStatus.complete,
        "Created complete XSD with proper namespaces", 95⟩,
      ⟨3, "Wrap in Profile XML", "N/A", "Boomi Profile XML structure",
        StepStatus.complete, "Generated complete Profile component", 100⟩ ]
  else if serviceType = "JavaService" then
    [ ⟨1, "Analyze Java Code", "Java service (java.frag)", "Data Process shape",
        StepStatus.complete, "Identified 15 IData operations", 70⟩,
      ⟨2, "Convert to Groovy", "Java IData API calls", "Groovy with Properties API",
        StepStatus.warning, "Converted with 70% confidence - review recommended", 70⟩,
      ⟨3, "Generate Data Process XML", "N/A", "Data Process shape with Groovy script",
        StepStatus.complete, "Wrapped Groovy in Data Process configuration", 90⟩ ]
  else
    [ ⟨1, "Identify Component Type", serviceType, "Determine Boomi equivalent",
        StepStatus.complete, "Mapped to appropriate Boomi component type", 80⟩,
      ⟨2, "Generate Configuration", "Extract configuration parameters",
        "Boomi component configuration", StepStatus.complete,
        "Generated component configuration", 75⟩,
      ⟨3, "Generate XML", "N/A", "Complete Boomi XML", StepStatus.complete,
        "Created deployable XML", 85⟩ ]

/-- JavaScript `Math.round (num / den)` for non-negative operands:
round half away from zero, which for naturals is `⌊(2 num + den) / (2 den)⌋`. -/
def jsRound (num den : Nat) : Nat :=
  (2 * num + den) / (2 * den)

/-- `calculateOverallAutomation`: 0 for an empty step list, otherwise the
rounded arithmetic mean of the per-step `automation` scores. -/
def calculateOverallAutomation (steps : List ConversionStep) : Nat :=
  if steps.length = 0 then 0
  else jsRound (steps.foldl (fun sum s => sum + s.automation) 0) steps.length

/-- C6: every conversion generated by the viewer that contains a scripting or
placeholder step (per-step automation at most 70) has an aggregate
automation score strictly below the ready-for-unattended-deployment
threshold of 90 (the `>= 90` one-click deployment banner). -/
theorem C6_low_confidence_step_caps_aggregate (serviceType : String)
    (h : ∃ s ∈ generateConversionSteps serviceType, s.automation ≤ 70) :
    calculateOverallAutomation (generateConversionSteps serviceType) < 90 := by
  by_cases h1 : serviceType = "FlowService"
  · subst h1; revert h; decide
  · by_cases h2 : serviceType = "DocumentType"
    · subst h2; revert h; decide
    · by_cases h3 : serviceType = "JavaService"
      · subst h3; revert h; decide
      · simp only [generateConversionSteps, if_neg h1, if_neg h2, if_neg h3] at h ⊢
        simp only [List.mem_cons, List.not_mem_nil, or_false] at h
        obtain ⟨s, hs, hle⟩ := h
        rcases hs with rfl | rfl | rfl <;> simp_all

/-- Witness for C6: the `JavaService` branch carries two 70-automation
scripting steps, and its aggregate score is 77 < 90. -/
theorem C6_witness :
    (∃ s ∈ generateConversionSteps "JavaService", s.automation ≤ 70)
    ∧ calculateOverallAutomation (generateConversionSteps "JavaService") < 90 :=
  ⟨by decide, C6_low_confidence_step_caps_aggregate "JavaService" (by decide)⟩

end Viewer

namespace Impl

/-! Shallow embedding of the step-to-shape mapping of
`IntegrationImplementation` (`convertStep` and `viewStepDetails`). -/

/-- The shape-name lookup of `convertStep`: a six-key object literal indexed
by `step.type`, with `'Business Rules Shape'` as the `||` fallback for any
other key. -/
def convertStepShape (stepType : String) : String :=
  if stepType = "MAP" then "Map Shape"
  else if stepType = "BRANCH" then "Decision Shape"
  else if stepType = "LOOP" then "ForEach Shape"
  else if stepType = "INVOKE" then "Connector Shape"
  else if stepType = "SEQUENCE" then "Try/Catch Shape"
  else if stepType = "EXIT" then "Stop Shape"
  else "Business Rules Shape"

/-- The `boomiMapping` lookup of `viewStepDetails`, with the same keys and
the same fallback. -/
def viewBoomiMapping (stepType : String) : String :=
  if stepType = "MAP" then "Map Shape - Data transformation"
  else if stepType = "BRANCH" then "Decision Shape - Conditional routing"
  else if stepType = "LOOP" then "ForEach Shape - Iterate over documents"
  else if stepType = "INVOKE" then "Connector Shape - External service call"
  else if stepType = "SEQUENCE" then "Try/Catch Shape - Error handling"
  else if stepType = "EXIT" then "Stop Shape - End process"
  else "Business Rules Shape"

/-- The step types the conversion lookup recognizes explicitly. -/
def recognizedStepTypes : List String :=
  ["MAP", "BRANCH", "LOOP", "INVOKE", "SEQUENCE", "EXIT"]

/-- The verb-kind counters of the `FlowVerbStats` interface
(`types/index.ts` lines 33-44), in declaration order. -/
def flowVerbKinds : List String :=
  ["map", "branch", "loop", "repeat", "sequence", "tryCatch",
   "tryFinally", "catch", "finally", "exit"]

/-- C2 counterexample: a `LOOP` iteration step is mapped to the explicit
iteration node `'ForEach Shape'` unconditionally — the conversion consults
only `step.type`, so the default for an iteration step is an explicit
iteration node, not its omission. -/
theorem C2_counterexample :
    convertStepShape "LOOP" = "ForEach Shape"
    ∧ viewBoomiMapping "LOOP" = "ForEach Shape - Iterate over documents" := by
  constructor <;> rfl

/-- C2 amended: every step whose verb is `LOOP` is converted to the explicit
iteration node `'ForEach Shape'`, unconditionally — no iteration-index
analysis suppresses it. -/
theorem C2_loop_always_explicit_foreach (step : Canvas.StepObj)
    (h : step.type_ = "LOOP") :
    convertStepShape step.type_ = "ForEach Shape"
    ∧ viewBoomiMapping step.type_ = "ForEach Shape - Iterate over documents" := by
  rw [h]
  exact ⟨rfl, rfl⟩

/-- Witness for the amended C2 at a concrete `LOOP` step. -/
theorem C2_witness :
    convertStepShape (Canvas.StepObj.mk "LOOP" "iterate-orders").type_ = "ForEach Shape"
    ∧ viewBoomiMapping (Canvas.StepObj.mk "LOOP" "iterate-orders").type_ =
        "ForEach Shape - Iterate over documents" :=
  C2_loop_always_explicit_foreach ⟨"LOOP", "iterate-orders"⟩ rfl

/-- C3 counterexample: `REPEAT` is one of the nine source verb kinds (it has
a counter in `FlowVerbStats`, which in fact tracks ten kinds), yet the step
conversion silently maps it to the fallback `'Business Rules Shape'`
instead of raising a parse error. -/
theorem C3_counterexample :
    convertStepShape "REPEAT" = "Business Rules Shape"
    ∧ "REPEAT" ∉ recognizedStepTypes
    ∧ flowVerbKinds.length = 10 := by
  refine ⟨rfl, by decide, rfl⟩

/-- C3 amended: the step conversion recognizes exactly the six step types of
`recognizedStepTypes`, mapping each to a dedicated non-fallback shape, and
maps every other verb silently to the fallback `'Business Rules Shape'`
rather than reporting a parse error. -/
theorem C3_unrecognized_verbs_fall_back (stepType : String) :
    (stepType ∉ recognizedStepTypes →
        convertStepShape stepType = "Business Rules Shape")
    ∧ (stepType ∈ recognizedStepTypes →
        convertStepShape stepType ≠ "Business Rules Shape") := by
  constructor
  · intro h
    simp only [recognizedStepTypes, List.mem_cons, List.not_mem_nil, or_false,
      not_or] at h
    obtain ⟨h1, h2, h3, h4, h5, h6⟩ := h
    simp [convertStepShape, h1, h2, h3, h4, h5, h6]
  · intro h
    simp only [recognizedStepTypes, List.mem_cons, List.not_mem_nil, or_false] at h
    rcases h with rfl | rfl | rfl | rfl | rfl | rfl <;> decide

end Impl

namespace Push

/-! Shallow embedding of `pushToBoomi` in `IntegrationImplementation` and of
the `Conversion`/`ValidationResult` types it operates on. -/

/-- Severity of a validation issue, from the `ValidationError` interface. -/
inductive Severity where
  | error
  | warning
  | info
deriving DecidableEq, Repr

/-- One validation issue attached to a conversion. -/
structure ValidationIssue where
  severity : Severity
  message : String
  location : String
deriving DecidableEq, Repr

/-- The `ValidationResult` carried by a conversion. -/
structure ValidationResult where
  isValid : Bool
  errors : List ValidationIssue
  warnings : List ValidationIssue
deriving DecidableEq, Repr

/-- The slice of a stored conversion that `pushToBoomi` and the claim read:
the generated document and its validation result. -/
structure Conversion where
  boomiXml : String
  validation : Option ValidationResult
deriving DecidableEq, Repr

/-- `conversions.get(serviceName)` on the `Map<string, any>` of stored
conversions, modelled as association-list lookup. -/
def lookupConversion (conversions : List (String × Conversion))
    (serviceName : String) : Option Conversion :=
  match conversions with
  | [] => none
  | (k, c) :: rest =>
      if k = serviceName then some c else lookupConversion rest serviceName

/-- The request body `pushToBoomi` posts to the deployment collaborator. -/
structure PushRequest where
  projectId : String
  componentXml : String
  componentName : String
deriving DecidableEq, Repr

/-- `pushToBoomi`: look the conversion up by service name; if absent, return
without pushing; otherwise hand `conversion.boomiXml` to the push
collaborator.  No validation state is consulted. -/
def pushToBoomi (projectId : String) (conversions : List (String × Conversion))
    (serviceName : String) : Option PushRequest :=
  match lookupConversion conversions serviceName with
  | none => none
  | some conversion => some ⟨projectId, conversion.boomiXml, serviceName⟩

/-- A conversion has an error-severity issue (is Rejected in the spec's state
machine) when any attached issue carries `error` severity. -/
def hasErrorIssue (c : Conversion) : Bool :=
  match c.validation with
  | none => false
  | some v => (v.errors ++ v.warnings).any (fun i => i.severity == Severity.error)

/-- A stored conversion whose validation result holds one error-severity
issue: a rejected document in the spec's sense. -/
def rejectedConversion : Conversion :=
  ⟨"<process/>", some ⟨false, [⟨Severity.error, "missing start shape", "process"⟩], []⟩⟩

/-- C4 counterexample: a conversion whose validation result contains an
error-severity issue is nonetheless handed to the push collaborator —
`pushToBoomi` pushes it, because its only guard is that a stored conversion
exists for the service name. -/
theorem C4_counterexample :
    hasErrorIssue rejectedConversion = true
    ∧ pushToBoomi "p1" [("orders/sync", rejectedConversion)] "orders/sync" =
        some ⟨"p1", "<process/>", "orders/sync"⟩ :=
  ⟨rfl, rfl⟩

/-- C4 amended: `pushToBoomi` pushes every stored conversion regardless of
its validation state — whenever the lookup finds a conversion, the document
is handed to the push collaborator, error-severity issues included. -/
theorem C4_push_ignores_validation (projectId : String)
    (conversions : List (String × Conversion)) (serviceName : String)
    (c : Conversion) (h : lookupConversion conversions serviceName = some c) :
    pushToBoomi projectId conversions serviceName =
      some ⟨projectId, c.boomiXml, serviceName⟩ := by
  unfold pushToBoomi
  rw [h]

/-- Witness for the amended C4 at the rejected conversion. -/
theorem C4_witness :
    pushToBoomi "p1" [("orders/sync", rejectedConversion)] "orders/sync" =
      some ⟨"p1", rejectedConversion.boomiXml, "orders/sync"⟩ :=
  C4_push_ignores_validation "p1" [("orders/sync", rejectedConversion)]
    "orders/sync" rejectedConversion rfl

end Push

namespace Tracker

/-! Modelled from the spec: the repository snapshot ships no Pipeline State
Tracker under `src/` — the backend conversion engine is absent and only the
spec (§3 `PipelineState`, §4.2) describes it.  The model below follows the
spec's words: a step tree of value-assignment, invocation and
scope-introducing composite steps; depth-first traversal with a state
stack; on entering a scope a copy of the current state is processed against
the children, and on exit only variables explicitly marked for promotion
are merged back to the parent. -/

/-- A source flow step, restricted to the constructs §4.2 talks about:
value assignment (type-replacing updates), invocation (additive outputs),
and a scope-introducing composite with an explicit promotion list. -/
inductive Step where
  | assign (targets : List (String × String))
  | invoke (outputs : List (String × String))
  | scope (promoted : List String) (children : List Step)

/-- A `PipelineState`: an ordered mapping from variable name to declared
type. -/
def PipelineState : Type := List (String × String)

instance : DecidableEq PipelineState := by
  unfold PipelineState
  infer_instance

/-- Look a variable up in a pipeline state. -/
def lookupVar (st : PipelineState) (n : String) : Option String :=
  match st with
  | [] => none
  | (m, t) :: rest => if m = n then some t else lookupVar rest n

/-- Set a variable's declared type: type-replacing for an existing name,
appending for a new one (later assignments to the same name override). -/
def setVar (st : PipelineState) (n : String) (t : String) : PipelineState :=
  match st with
  | [] => [(n, t)]
  | (m, u) :: rest =>
      if m = n then (m, t) :: rest else (m, u) :: setVar rest n t

/-- Merge one explicitly promoted variable from the inner (scope-exit) state
back into the parent state; a promotion of a name the scope never bound is
a no-op. -/
def promoteVar (parent : PipelineState) (inner : PipelineState)
    (n : String) : PipelineState :=
  match lookupVar inner n with
  | none => parent
  | some t => setVar parent n t

mutual

/-- The post-state of one step, per §4.2: assignments and invocation outputs
update the state in order; a scope-introducing composite processes its
children against a copy of the entry state and merges only the promoted
variables back. -/
def track (s : Step) (st : PipelineState) : PipelineState :=
  match s with
  | Step.assign targets => targets.foldl (fun acc p => setVar acc p.1 p.2) st
  | Step.invoke outputs => outputs.foldl (fun acc p => setVar acc p.1 p.2) st
  | Step.scope promoted children =>
      promoted.foldl (fun acc n => promoteVar acc (trackSeq children st) n) st

/-- The post-state of a step sequence, threaded left to right. -/
def trackSeq (steps : List Step) (st : PipelineState) : PipelineState :=
  match steps with
  | [] => st
  | c :: cs => trackSeq cs (track c st)

end

/-- Setting one variable leaves every other name's binding unchanged. -/
theorem lookupVar_setVar_ne (st : PipelineState) (m n t : String)
    (h : m ≠ n) : lookupVar (setVar st n t) m = lookupVar st m := by
  induction st with
  | nil =>
      simp only [setVar, lookupVar]
      rw [if_neg (Ne.symm h)]
  | cons hd tl ih =>
      obtain ⟨k, u⟩ := hd
      by_cases hk : k = n
      · subst hk
        simp only [setVar, if_pos rfl, lookupVar]
        rw [if_neg (fun hc => h hc.symm), if_neg (fun hc => h hc.symm)]
      · simp only [setVar, if_neg hk, lookupVar]
        by_cases hm : k = m
        · rw [if_pos hm, if_pos hm]
        · rw [if_neg hm, if_neg hm]
          exact ih

/-- Folding promotions over a name list leaves names outside the list
untouched. -/
theorem lookupVar_foldl_promote (promoted : List String)
    (inner : PipelineState) (st : PipelineState) (n : String)
    (h : n ∉ promoted) :
    lookupVar (promoted.foldl (fun acc k => promoteVar acc inner k) st) n =
      lookupVar st n := by
  induction promoted generalizing st with
  | nil => rfl
  | cons p ps ih =>
      simp only [List.mem_cons, not_or] at h
      obtain ⟨hp, hps⟩ := h
      simp only [List.foldl_cons]
      rw [ih (promoteVar st inner p) hps]
      unfold promoteVar
      cases lookupVar inner p with
      | none => rfl
      | some t => exact lookupVar_setVar_ne st n p t hp

/-- C7: exiting a scope-introducing composite restores the parent's
pre-state exactly on every variable not explicitly promoted, and a grouping
step that promotes nothing — in particular an empty grouping step — is a
no-op on pipeline state. -/
theorem C7_scope_exit_restores_state (promoted : List String)
    (children : List Step) (st : PipelineState) :
    (∀ n, n ∉ promoted →
        lookupVar (track (Step.scope promoted children) st) n = lookupVar st n)
    ∧ track (Step.scope [] children) st = st
    ∧ track (Step.scope [] []) st = st := by
  refine ⟨?_, rfl, rfl⟩
  intro n hn
  unfold track
  exact lookupVar_foldl_promote promoted (trackSeq children st) st n hn

end Tracker

namespace Dash

/-! Shallow embedding of `loadDashboardData` in `Dashboard.tsx`: the parsed
and pending project counters. -/

/-- A project as the dashboard counters see it. -/
structure Project where
  projectId : String
  status : String
deriving DecidableEq, Repr

/-- `projects.filter(p => p.status === 'parsed').length`. -/
def parsedCount (projects : List Project) : Nat :=
  (projects.filter (fun p => p.status == "parsed")).length

/-- `projects.filter(p => p.status !== 'parsed').length`. -/
def pendingCount (projects : List Project) : Nat :=
  (projects.filter (fun p => !(p.status == "parsed"))).length

/-- C9: the two dashboard filters partition the project list, so the parsed
and pending counters always sum to the total number of projects. -/
theorem C9_parsed_pending_partition (projects : List Project) :
    parsedCount projects + pendingCount projects = projects.length := by
  induction projects with
  | nil => rfl
  | cons p ps ih =>
      cases hp : (p.status == "parsed") <;>
        simp only [parsedCount, pendingCount, List.filter_cons, hp, Bool.not_true,
          Bool.not_false, if_true, if_false, List.length_cons, Bool.false_eq_true,
          Bool.true_eq_false, ite_true, ite_false] at ih ⊢ <;>
        omega

end Dash

namespace Toast

/-! Shallow embedding of `ToastProvider` in `Toast.tsx`: `showToast` appends
a toast stamped with `Date.now()` as its id, and `removeToast` filters by
id inequality. -/

/-- Toast kinds, from the `ToastType` union. -/
inductive ToastType where
  | success
  | error
  | warning
  | info
deriving DecidableEq, Repr

/-- One queued toast (`ToastItem`). -/
structure ToastItem where
  id : Int
  message : String
  type_ : ToastType
deriving DecidableEq, Repr

/-- `showToast`: stamp the new toast with the current `Date.now()` value
(passed explicitly here) and append it to the queue. -/
def showToast (now : Int) (message : String) (ty : ToastType)
    (prev : List ToastItem) : List ToastItem :=
  prev ++ [⟨now, message, ty⟩]

/-- `removeToast`: keep exactly the toasts whose id differs from the
argument (`prev.filter(t => t.id !== id)`). -/
def removeToast (i : Int) (prev : List ToastItem) : List ToastItem :=
  prev.filter (fun t => !(t.id == i))

/-- C10: `removeToast` removes exactly the toasts whose id equals its
argument — the survivors are a sublist of the queue, and a toast survives
iff it was queued with a different id — and since ids come from
`Date.now()`, two toasts created in the same millisecond share an id, so
closing one removes both: pushing two toasts stamped with the same `now`
and then removing that id gives the same queue as removing it directly. -/
theorem C10_removeToast_exact_and_shared_ids (i : Int) (l : List ToastItem) :
    (removeToast i l).Sublist l
    ∧ (∀ t, t ∈ removeToast i l ↔ (t ∈ l ∧ t.id ≠ i))
    ∧ (∀ (now : Int) (m1 m2 : String) (ty1 ty2 : ToastType),
        removeToast now (showToast now m2 ty2 (showToast now m1 ty1 l)) =
          removeToast now l) := by
  refine ⟨List.filter_sublist _, ?_, ?_⟩
  · intro t
    simp [removeToast, List.mem_filter]
  · intro now m1 m2 ty1 ty2
    simp [removeToast, showToast, List.filter_append]

end Toast
